import Mathlib

/-!
Verification of the EduSync client core: the `apiFetch` HTTP helper, the
time/status formatters, the auth-context `login`, the student dashboard
per-course fan-out loader, and two mutation handlers.  Timestamps are
modelled as epoch milliseconds (`Int`); an empty/absent timestamp string is
modelled as `none`.  JavaScript `Math.round`, truthiness, JSON values,
`JSON.parse` / `JSON.stringify` and template-string coercion are modelled
explicitly below.
-/

/-- Models JavaScript `Math.round (n / d)` for a positive divisor `d`:
round half toward positive infinity, i.e. `⌊n/d + 1/2⌋`. -/
def jsRoundDiv (n d : Int) : Int := Int.fdiv (2 * n + d) (2 * d)

/-- `getRelativeTime` from the student dashboard utilities.  The input is the
parsed instant of the `isoDate` argument (`none` for an empty string), `now`
is the current clock reading; both in epoch milliseconds. -/
def getRelativeTime (isoDate : Option Int) (now : Int) : String :=
  match isoDate with
  | none => "No due date"
  | some due =>
    let diffMs := due - now
    let diffSeconds := jsRoundDiv diffMs 1000
    let diffMinutes := jsRoundDiv diffSeconds 60
    let diffHours := jsRoundDiv diffMinutes 60
    let diffDays := jsRoundDiv diffHours 24
    if diffSeconds < 0 then
      let absSeconds := diffSeconds.natAbs
      let absMinutes := diffMinutes.natAbs
      let absHours := diffHours.natAbs
      let absDays := diffDays.natAbs
      if absSeconds < 60 then s!"{absSeconds} seconds overdue"
      else if absMinutes < 60 then s!"{absMinutes} minutes overdue"
      else if absHours < 24 then s!"{absHours} hours overdue"
      else s!"{absDays} days overdue"
    else
      if diffSeconds < 60 then s!"due in {diffSeconds} seconds"
      else if diffMinutes < 60 then s!"due in {diffMinutes} minutes"
      else if diffHours < 24 then s!"due in {diffHours} hours"
      else s!"due in {diffDays} days"

/-- `isDueDateOver` from the student dashboard utilities: `now > due`,
`false` for an empty input. -/
def isDueDateOver (dueDate : Option Int) (now : Int) : Bool :=
  match dueDate with
  | none => false
  | some due => decide (due < now)

/-- Month names used by the `en-US` long month format. -/
def monthName : Nat → String
  | 1 => "January" | 2 => "February" | 3 => "March" | 4 => "April"
  | 5 => "May" | 6 => "June" | 7 => "July" | 8 => "August"
  | 9 => "September" | 10 => "October" | 11 => "November" | 12 => "December"
  | _ => "Invalid"

/-- Two-digit zero padding, as produced by the `2-digit` format option. -/
def pad2 (n : Nat) : String := if n < 10 then "0" ++ toString n else toString n

/-- Gregorian civil date from days since the Unix epoch
(standard era-based conversion); returns `(year, month, day)`. -/
def civilFromDays (z0 : Int) : Int × Nat × Nat :=
  let z := z0 + 719468
  let era := Int.fdiv z 146097
  let doe := (z - era * 146097).toNat
  let yoe := (doe - doe / 1460 + doe / 36524 - doe / 146096) / 365
  let doy := doe - (365 * yoe + yoe / 4 - yoe / 100)
  let mp := (5 * doy + 2) / 153
  let d := doy - (153 * mp + 2) / 5 + 1
  let m := if mp < 10 then mp + 3 else mp - 9
  let y := (yoe : Int) + era * 400
  (if m ≤ 2 then y + 1 else y, m, d)

/-- Rendering of a timestamp by
`toLocaleString("en-US", \x7bmonth: "long", day: "numeric", year: "numeric",
hour: "2-digit", minute: "2-digit", hour12: false\x7d)`, modelled in UTC
(the browser would use the host timezone). -/
def formatDateRender (t : Int) : String :=
  let days := Int.fdiv t 86400000
  let msOfDay := (t - days * 86400000).toNat
  let ymd := civilFromDays days
  let yStr := toString ymd.1
  let dStr := toString ymd.2.2
  let mStr := monthName ymd.2.1
  let hh := pad2 (msOfDay / 3600000)
  let mm := pad2 (msOfDay % 3600000 / 60000)
  s!"{mStr} {dStr}, {yStr} at {hh}:{mm}"

/-- `formatDate` from the student dashboard utilities: `"N/A"` for an
empty/absent input, otherwise the locale rendering. -/
def formatDate (isoDate : Option Int) : String :=
  match isoDate with
  | none => "N/A"
  | some t => formatDateRender t

/-- The relative-time label as described by the (amended) specification:
round at each unit boundary, pick the coarsest unit whose rounded magnitude
fits (under 60 seconds, under 60 minutes, under 24 hours, else days), and
direct the phrase by the sign of the rounded seconds difference. -/
def relativeLabelSpec (due now : Int) : String :=
  let s := jsRoundDiv (due - now) 1000
  let m := jsRoundDiv s 60
  let h := jsRoundDiv m 60
  let d := jsRoundDiv h 24
  let direct : String → String := fun core =>
    if s < 0 then core ++ " overdue" else "due in " ++ core
  if s.natAbs < 60 then direct s!"{s.natAbs} seconds"
  else if m.natAbs < 60 then direct s!"{m.natAbs} minutes"
  else if h.natAbs < 24 then direct s!"{h.natAbs} hours"
  else direct s!"{d.natAbs} days"

/-! ## JSON values and the JavaScript coercions used by the client -/

/-- JSON values as produced by `JSON.parse`.  Numbers are exact rationals
(every JSON numeric literal denotes one); object fields are kept in
insertion order with unique keys, as JavaScript objects do. -/
inductive Json where
  | null : Json
  | bool (b : Bool) : Json
  | num (q : Rat) : Json
  | str (s : String) : Json
  | arr (elems : List Json) : Json
  | obj (fields : List (String × Json)) : Json

/-- JavaScript truthiness of a JSON value: `null`, `false`, `0` and `""`
are falsy; arrays and objects are always truthy. -/
def Json.truthy : Json → Bool
  | .null => false
  | .bool b => b
  | .num q => q != 0
  | .str s => s != ""
  | .arr _ => true
  | .obj _ => true

/-- Property access `j[k]` as used on a parsed JSON value: a field lookup on
an object, `none` (JavaScript `undefined`) on everything else. -/
def Json.getField : Json → String → Option Json
  | .obj fields, k => (fields.find? (fun f => f.1 == k)).map (·.2)
  | _, _ => none

/-- The multiplicity of `p` in `n`, by fuelled division. -/
def multAux (p : Nat) : Nat → Nat → Nat
  | 0, _ => 0
  | fuel + 1, n => if n % p = 0 && n ≠ 0 then 1 + multAux p fuel (n / p) else 0

/-- Decimal rendering of a rational with a `2^a * 5^b` denominator, matching
how JavaScript prints the finite decimals that JSON literals denote (the
exponential notation JavaScript switches to for extreme magnitudes is not
modelled; no value in this development reaches it). -/
def numToString (q : Rat) : String :=
  if q.den = 1 then toString q.num
  else
    let k := max (multAux 2 q.den q.den) (multAux 5 q.den q.den)
    let scaled := q.num.natAbs * 10 ^ k / q.den
    let w := toString scaled
    let w := if w.length < k + 1 then String.mk (List.replicate (k + 1 - w.length) '0') ++ w else w
    let ip := w.take (w.length - k)
    let fp := w.drop (w.length - k)
    (if q.num < 0 then "-" else "") ++ ip ++ "." ++ fp

/-- JavaScript string coercion `String(v)` of a JSON value, as performed by
a template literal: arrays join their elements with commas (null elements
become empty), objects print as `[object Object]`. -/
def Json.jsToString : Json → String
  | .null => "null"
  | .bool b => if b then "true" else "false"
  | .num q => numToString q
  | .str s => s
  | .arr elems => joinElems elems
  | .obj _ => "[object Object]"
where
  /-- `Array.prototype.join(",")` with the null/undefined-to-empty rule. -/
  joinElems : List Json → String
  | [] => ""
  | [x] => elemStr x
  | x :: xs => elemStr x ++ "," ++ joinElems xs
  /-- One joined element: `null` renders empty. -/
  elemStr : Json → String
  | .null => ""
  | v => Json.jsToString v

/-- JSON string escaping performed by `JSON.stringify`. -/
def quoteJson (s : String) : String :=
  "\"" ++ String.join (s.data.map escapeChar) ++ "\""
where
  /-- Escape one character. -/
  escapeChar (c : Char) : String :=
    if c = '"' then "\\\""
    else if c = '\\' then "\\\\"
    else if c = '\n' then "\\n"
    else if c = '\r' then "\\r"
    else if c = '\t' then "\\t"
    else if c = '\x08' then "\\b"
    else if c = '\x0c' then "\\f"
    else if c.toNat < 0x20 then
      "\\u00" ++ String.mk [Nat.digitChar (c.toNat / 16), Nat.digitChar (c.toNat % 16)]
    else String.mk [c]

mutual

/-- `JSON.stringify` of a JSON value. -/
def Json.stringify : Json → String
  | .null => "null"
  | .bool b => if b then "true" else "false"
  | .num q => numToString q
  | .str s => quoteJson s
  | .arr elems => "[" ++ stringifyArr elems ++ "]"
  | .obj fields => "\x7b" ++ stringifyObj fields ++ "\x7d"

/-- Comma-joined array elements of `JSON.stringify`. -/
def stringifyArr : List Json → String
  | [] => ""
  | [x] => x.stringify
  | x :: xs => x.stringify ++ "," ++ stringifyArr xs

/-- Comma-joined object members of `JSON.stringify`. -/
def stringifyObj : List (String × Json) → String
  | [] => ""
  | [kv] => quoteJson kv.1 ++ ":" ++ kv.2.stringify
  | kv :: rest => quoteJson kv.1 ++ ":" ++ kv.2.stringify ++ "," ++ stringifyObj rest

end

/-! ## `JSON.parse` -/

/-- JSON whitespace skipping (space, tab, line feed, carriage return). -/
def skipWs : List Char → List Char
  | c :: rest =>
    if c = ' ' || c = '\t' || c = '\n' || c = '\r' then skipWs rest else c :: rest
  | [] => []

/-- Value of a hexadecimal digit. -/
def hexVal (c : Char) : Option Nat :=
  if '0' ≤ c && c ≤ '9' then some (c.toNat - 48)
  else if 'a' ≤ c && c ≤ 'f' then some (c.toNat - 87)
  else if 'A' ≤ c && c ≤ 'F' then some (c.toNat - 55)
  else none

/-- Body of a JSON string literal, after the opening quote: returns the
decoded characters and the input after the closing quote.  Raw control
characters and unknown escapes are rejected, as `JSON.parse` rejects them.
A `\uXXXX` escape outside the scalar range decodes to the null character
(Lean `Char` cannot hold lone surrogates; no claim depends on them). -/
def parseStringChars : List Char → Option (List Char × List Char)
  | [] => none
  | '"' :: rest => some ([], rest)
  | '\\' :: esc =>
    match esc with
    | '"' :: r => (parseStringChars r).map (fun p => ('"' :: p.1, p.2))
    | '\\' :: r => (parseStringChars r).map (fun p => ('\\' :: p.1, p.2))
    | '/' :: r => (parseStringChars r).map (fun p => ('/' :: p.1, p.2))
    | 'b' :: r => (parseStringChars r).map (fun p => ('\x08' :: p.1, p.2))
    | 'f' :: r => (parseStringChars r).map (fun p => ('\x0c' :: p.1, p.2))
    | 'n' :: r => (parseStringChars r).map (fun p => ('\n' :: p.1, p.2))
    | 'r' :: r => (parseStringChars r).map (fun p => ('\r' :: p.1, p.2))
    | 't' :: r => (parseStringChars r).map (fun p => ('\t' :: p.1, p.2))
    | 'u' :: a :: b :: c :: d :: r =>
      match hexVal a, hexVal b, hexVal c, hexVal d with
      | some ha, some hb, some hc, some hd =>
        let code := ((ha * 16 + hb) * 16 + hc) * 16 + hd
        (parseStringChars r).map (fun p => (Char.ofNat code :: p.1, p.2))
      | _, _, _, _ => none
    | _ => none
  | c :: rest =>
    if c.toNat < 0x20 then none
    else (parseStringChars rest).map (fun p => (c :: p.1, p.2))

/-- Longest digit prefix of the input. -/
def takeDigits : List Char → List Char × List Char
  | c :: rest =>
    if c.isDigit then
      let p := takeDigits rest
      (c :: p.1, p.2)
    else ([], c :: rest)
  | [] => ([], [])

/-- Natural number denoted by a digit string. -/
def digitsToNat (ds : List Char) : Nat :=
  ds.foldl (fun acc c => acc * 10 + (c.toNat - 48)) 0

/-- A JSON number literal: optional minus, an integer part without leading
zeros, an optional fraction, an optional exponent.  Returns its exact
rational value and the rest of the input. -/
def parseNumber (input : List Char) : Option (Rat × List Char) :=
  let (neg, afterSign) :=
    match input with
    | '-' :: r => (true, r)
    | r => (false, r)
  let (intDigits, afterInt) := takeDigits afterSign
  if intDigits = [] then none
  else if intDigits.head? = some '0' && intDigits.length > 1 then none
  else
    let (fracDigits, afterFrac) :=
      match afterInt with
      | '.' :: r =>
        let p := takeDigits r
        if p.1 = [] then ([], '.' :: r) else (p.1, p.2)
      | r => ([], r)
    if afterInt ≠ afterFrac ∨ afterInt.head? ≠ some '.' then
      -- well-formed so far; now the optional exponent
      let expPart : Option (Int × List Char) :=
        match afterFrac with
        | 'e' :: r | 'E' :: r =>
          match r with
          | '+' :: r2 =>
            let p := takeDigits r2
            if p.1 = [] then none else some ((digitsToNat p.1 : Int), p.2)
          | '-' :: r2 =>
            let p := takeDigits r2
            if p.1 = [] then none else some (-(digitsToNat p.1 : Int), p.2)
          | r2 =>
            let p := takeDigits r2
            if p.1 = [] then none else some ((digitsToNat p.1 : Int), p.2)
        | r => some (0, r)
      match expPart with
      | none => none
      | some (e, rest) =>
        let mantissa : Nat := digitsToNat (intDigits ++ fracDigits)
        let base : Rat := (mantissa : Rat) / ((10 : Rat) ^ fracDigits.length)
        let scaled : Rat :=
          if 0 ≤ e then base * (10 : Rat) ^ e.toNat else base / (10 : Rat) ^ (-e).toNat
        some (if neg then -scaled else scaled, rest)
    else none

/-- Object-field insertion with JavaScript duplicate-key semantics: a later
duplicate overwrites the value but keeps the first key's position. -/
def insertField (fields : List (String × Json)) (k : String) (v : Json) :
    List (String × Json) :=
  if fields.any (fun f => f.1 == k) then
    fields.map (fun f => if f.1 == k then (k, v) else f)
  else fields ++ [(k, v)]

mutual

/-- One JSON value (after optional leading whitespace), by fuelled descent;
returns the value and the remaining input. -/
def parseVal : Nat → List Char → Option (Json × List Char)
  | 0, _ => none
  | fuel + 1, input =>
    match skipWs input with
    | 'n' :: 'u' :: 'l' :: 'l' :: r => some (.null, r)
    | 't' :: 'r' :: 'u' :: 'e' :: r => some (.bool true, r)
    | 'f' :: 'a' :: 'l' :: 's' :: 'e' :: r => some (.bool false, r)
    | '"' :: r => (parseStringChars r).map (fun p => (.str (String.mk p.1), p.2))
    | '[' :: r =>
      (match skipWs r with
       | ']' :: r2 => some (.arr [], r2)
       | r2 => parseArrItems fuel r2 [])
    | '\x7b' :: r =>
      (match skipWs r with
       | '\x7d' :: r2 => some (.obj [], r2)
       | r2 => parseObjItems fuel r2 [])
    | r => (parseNumber r).map (fun p => (.num p.1, p.2))

/-- The elements of a non-empty JSON array, accumulating in order. -/
def parseArrItems : Nat → List Char → List Json → Option (Json × List Char)
  | 0, _, _ => none
  | fuel + 1, input, acc =>
    match parseVal fuel input with
    | none => none
    | some (v, rest) =>
      match skipWs rest with
      | ',' :: r => parseArrItems fuel r (acc ++ [v])
      | ']' :: r => some (.arr (acc ++ [v]), r)
      | _ => none

/-- The members of a non-empty JSON object, accumulating in order. -/
def parseObjItems : Nat → List Char → List (String × Json) →
    Option (Json × List Char)
  | 0, _, _ => none
  | fuel + 1, input, acc =>
    match skipWs input with
    | '"' :: r =>
      match parseStringChars r with
      | none => none
      | some (keyChars, afterKey) =>
        match skipWs afterKey with
        | ':' :: afterColon =>
          match parseVal fuel afterColon with
          | none => none
          | some (v, rest) =>
            let acc2 := insertField acc (String.mk keyChars) v
            match skipWs rest with
            | ',' :: r2 => parseObjItems fuel r2 acc2
            | '\x7d' :: r2 => some (.obj acc2, r2)
            | _ => none
        | _ => none
    | _ => none

end

/-- `JSON.parse`: parse one value and require only whitespace after it. -/
def Json.parse (s : String) : Option Json :=
  match parseVal (2 * s.data.length + 2) s.data with
  | some (v, rest) => if skipWs rest = [] then some v else none
  | none => none

/-! ## The `apiFetch` HTTP helper -/

/-- The outgoing request assembled by `apiFetch`. -/
structure ApiRequest where
  url : String
  method : String
  headers : List (String × String)
  body : Option String
deriving Repr

/-- The fixed API base of `apiFetch`. -/
def API_BASE_URL : String := "http://localhost:8080/api"

/-- Request construction of `apiFetch` (its lines before the network call):
`Content-Type` always, `Authorization` only for a truthy token, a serialized
body only for a truthy `data` argument (whose JavaScript default is `null`). -/
def buildRequest (endpoint method : String) (token : Option String)
    (data : Json) : ApiRequest :=
  let baseHeaders := [("Content-Type", "application/json")]
  let headers :=
    match token with
    | some t => if t = "" then baseHeaders else baseHeaders ++ [("Authorization", "Bearer " ++ t)]
    | none => baseHeaders
  { url := API_BASE_URL ++ endpoint
    method := method
    headers := headers
    body := if data.truthy then some data.stringify else none }

/-- What `apiFetch` observes of the `fetch` response: the `ok` flag, the
numeric status and the text of the body. -/
structure HttpResponse where
  ok : Bool
  status : Nat
  bodyText : String

/-- The generic fallback error message of `apiFetch`. -/
def requestFailedMsg (status : Nat) : String := s!"Request failed (Status: {status})"

/-- The status suffix `apiFetch` appends to every thrown error message. -/
def statusSuffix (status : Nat) : String := s!" (Status: {status})"

/-- JavaScript `v || fallback` where `v` is a possibly-undefined JSON value
and the fallback is a string: the coerced value if truthy, else the fallback. -/
def jsOrElse (v : Option Json) (fallback : String) : String :=
  match v with
  | some x => if x.truthy then x.jsToString else fallback
  | none => fallback

/-- `errorData.error?.message || errorData.message || generic` from
`apiFetch`'s non-success branch. -/
def extractErrorMessage (errorData : Json) (generic : String) : String :=
  jsOrElse ((errorData.getField "error").bind (fun e => e.getField "message"))
    (jsOrElse (errorData.getField "message") generic)

/-- Response handling of `apiFetch`: on a non-success status, build the error
message from the JSON body (falling back to the raw text, then to the generic
message) and fail with the status suffix appended; on success, an empty body
parses to the empty object and a non-JSON body fails with the parse error. -/
def apiFetchHandle (r : HttpResponse) : Except String Json :=
  if r.ok then
    if r.bodyText = "" then .ok (Json.obj [])
    else
      match Json.parse r.bodyText with
      | some j => .ok j
      | none => .error "Failed to parse response as JSON"
  else
    let generic := requestFailedMsg r.status
    let errorMessage :=
      match Json.parse r.bodyText with
      | some errorData => extractErrorMessage errorData generic
      | none => if r.bodyText = "" then generic else r.bodyText
    .error (errorMessage ++ statusSuffix r.status)

/-! ## The auth-context `login` -/

/-- Per-tab session storage: key/value string pairs. -/
abbrev Store := List (String × String)

/-- `sessionStorage.setItem`: replace the value in place or append. -/
def setItem (store : Store) (k v : String) : Store :=
  if store.any (fun f => f.1 == k) then
    store.map (fun f => if f.1 == k then (k, v) else f)
  else store ++ [(k, v)]

/-- What `login` observes of the `fetch` response: the `ok` flag and the
result of `response.json()` (`none` when that call rejects). -/
structure LoginResponse where
  ok : Bool
  body : Option Json

/-- JavaScript `String(x)` where `x` is a possibly-absent field value:
an absent field is `undefined`, which coerces to the string `undefined`. -/
def jsFieldToString (v : Option Json) : String :=
  match v with
  | some x => x.jsToString
  | none => "undefined"

/-- The validation `login` actually performs on a success response:
`!data.user || !data.user.role` — the token field is never examined. -/
def loginUserCheck (data : Json) : Bool :=
  match data.getField "user" with
  | some u =>
    u.truthy &&
      (match u.getField "role" with
       | some r => r.truthy
       | none => false)
  | none => false

/-- The auth-context `login`, as a function of the backend response and the
session storage; returns the outcome (the user, or the thrown error message)
together with the storage after the call. -/
def login (resp : LoginResponse) (store : Store) : Except String Json × Store :=
  if resp.ok then
    match resp.body with
    | none => (.error "Unexpected end of JSON input", store)
    | some data =>
      if loginUserCheck data then
        let store1 := setItem store "token" (jsFieldToString (data.getField "token"))
        let store2 := setItem store1 "user"
          (match data.getField "user" with
           | some u => u.stringify
           | none => "undefined")
        (.ok ((data.getField "user").getD .null), store2)
      else (.error "Invalid user data received from server", store)
  else
    let errorData := (resp.body).getD (Json.obj [])
    (.error (jsOrElse (errorData.getField "message") "Login failed"), store)

/-! ## The student dashboard per-course fan-out (`fetchCourseData`) -/

/-- The three unified dashboard lists `fetchCourseData` updates. -/
structure StudentDashState where
  upcomingAssignments : List Json
  announcements : List Json
  materials : List Json

/-- `Promise.all` over already-settled outcomes: all values, or the first
rejection. -/
def promiseAll {α : Type} (ps : List (Except String α)) : Except String (List α) :=
  match ps with
  | [] => .ok []
  | p :: rest =>
    match p, promiseAll rest with
    | .ok v, .ok vs => .ok (v :: vs)
    | .error e, _ => .error e
    | .ok _, .error e => .error e

/-- `fetchCourseData` from the student dashboard: three sequential
`Promise.all` fan-outs (assignments, announcements, materials), each
followed by its state update, all inside one `try`/`catch` whose handler
only logs — so the first rejection ends the function with every remaining
update skipped.  Each per-course fetch is modelled by its settled outcome
(the course's array of items, or a rejection message). -/
def fetchCourseData (joinedCourses : List Nat)
    (fetchAssignments fetchAnnouncements fetchMaterials :
      Nat → Except String (List Json))
    (st : StudentDashState) : StudentDashState :=
  match promiseAll (joinedCourses.map fetchAssignments) with
  | .error _ => st
  | .ok assignmentResults =>
    let st1 := { st with
      upcomingAssignments := assignmentResults.flatten.filter Json.truthy }
    match promiseAll (joinedCourses.map fetchAnnouncements) with
    | .error _ => st1
    | .ok announcementResults =>
      let st2 := { st1 with
        announcements := announcementResults.flatten.filter
          (fun a => a.truthy && ((a.getField "course").getD .null).truthy) }
      match promiseAll (joinedCourses.map fetchMaterials) with
      | .error _ => st2
      | .ok materialResults =>
        { st2 with materials := materialResults.flatten.filter Json.truthy }

/-! ## Mutation handlers -/

/-- JavaScript `String.prototype.includes`: substring containment. -/
def jsIncludes (s pat : String) : Bool := decide (pat.data <:+: s.data)

/-- The friendlier message for the unknown-classroom enrollment failure. -/
def noClassroomFriendly : String :=
  "No classroom exists with this Course ID. Please check the ID and try again."

/-- The friendlier message for the teacher-mismatch enrollment failure. -/
def teacherMismatchFriendly : String :=
  "The teacher name does not match the course. Please check the teacher name and try again."

/-- The `catch` branch of `handleJoinCourse`: the alert text shown for an
enrollment failure with message `errorMsg`. -/
def enrollErrorAlert (errorMsg : String) : String :=
  if jsIncludes errorMsg "No classroom exists" then noClassroomFriendly
  else if jsIncludes errorMsg "Teacher does not match the course" then teacherMismatchFriendly
  else s!"Enrollment failed: {errorMsg}"

/-- The observable outcome of `handleCreateAnnouncement`: the network
requests it issued and the alert it showed (the surrounding list-state
updates are not needed by any claim). -/
structure CreateAnnouncementResult where
  requests : List ApiRequest
  alert : String

/-- `handleCreateAnnouncement` from the teacher dashboard: local validation
of the selected course, title and content (alerting and returning before any
request when one is missing), then exactly one POST through `apiFetch`,
whose settled outcome is given by `server`. -/
def handleCreateAnnouncement (token : Option String) (selectedCourse : Option Nat)
    (title content : String) (isPinned : Bool)
    (server : ApiRequest → Except String Json) : CreateAnnouncementResult :=
  match selectedCourse with
  | none => ⟨[], "Please provide a course, announcement title, and content"⟩
  | some courseId =>
    if title = "" || content = "" then
      ⟨[], "Please provide a course, announcement title, and content"⟩
    else
      let payload := Json.obj
        [("course_id", .num (courseId : Rat)),
         ("title", .str title),
         ("content", if content = "" then .null else .str content),
         ("is_pinned", .bool isPinned)]
      let req := buildRequest "/announcements" "POST" token payload
      match server req with
      | .ok _ => ⟨[req], "Announcement made successfully."⟩
      | .error e => ⟨[req], s!"An error occurred while creating the announcement: {e}"⟩

/-- Per-course assignment outcomes for the fan-out example: course 2's
fetch rejects, every other course resolves with one assignment. -/
def cexFetchAssignments : Nat → Except String (List Json) := fun courseId =>
  if courseId = 2 then .error "Network error"
  else .ok [Json.str (s!"a{courseId}")]

/-- Per-course outcomes that always resolve with an empty array. -/
def cexFetchEmpty : Nat → Except String (List Json) := fun _ => .ok []

/-! ## Theorems -/

/-- String append reassociation with literal merging, used to compare
interpolated strings against appended ones. -/
theorem strAppendAssoc (a b c : String) : (a ++ b) ++ c = a ++ (b ++ c) := by
  rw [String.append_assoc]

/-- C9: For every empty or absent timestamp input, `formatDate` returns
`"N/A"` and `getRelativeTime` returns `"No due date"`. -/
theorem emptyTimestamp_formatting :
    formatDate none = "N/A" ∧ ∀ now : Int, getRelativeTime none now = "No due date" :=
  ⟨rfl, fun _ => rfl⟩

/-- C6: `isDueDateOver` returns true iff the non-empty input instant is
strictly before the current time; the boundary `now = due` gives false, and
empty input gives false. -/
theorem isDueDateOver_strict (due now : Int) :
    (isDueDateOver (some due) now = true ↔ due < now) ∧
    isDueDateOver (some now) now = false ∧
    isDueDateOver none now = false := by
  refine ⟨?_, ?_, rfl⟩
  · simp [isDueDateOver]
  · simp [isDueDateOver]

/-- C6 witness: a past instant is over, the boundary instant is not. -/
theorem isDueDateOver_strict_witness :
    isDueDateOver (some 5) 10 = true ∧ isDueDateOver (some 10) 10 = false :=
  ⟨(isDueDateOver_strict 5 10).1.mpr (by decide), (isDueDateOver_strict 10 10).2.1⟩

/-- C4: On a success HTTP status, an empty body resolves to the empty
object, and a non-empty body that is not valid JSON rejects with the
message `Failed to parse response as JSON`. -/
theorem apiFetch_success_parsing (status : Nat) :
    apiFetchHandle ⟨true, status, ""⟩ = .ok (Json.obj []) ∧
    ∀ body : String, body ≠ "" → Json.parse body = none →
      apiFetchHandle ⟨true, status, body⟩ = .error "Failed to parse response as JSON" := by
  refine ⟨rfl, ?_⟩
  intro body hne hparse
  simp [apiFetchHandle, hne, hparse]

/-- C4 witness: a 200 with a non-JSON body rejects with the parse error;
a 200 with an empty body resolves to the empty object. -/
theorem apiFetch_success_parsing_witness :
    apiFetchHandle ⟨true, 200, "not json"⟩ = .error "Failed to parse response as JSON" ∧
    apiFetchHandle ⟨true, 200, ""⟩ = .ok (Json.obj []) :=
  ⟨(apiFetch_success_parsing 200).2 "not json" (by decide) rfl,
   (apiFetch_success_parsing 200).1⟩

/-- C8: Invoking the create-announcement handler with an empty title is
rejected by local validation with a user-visible message, issuing zero
network requests, whatever the other inputs and the backend would do. -/
theorem createAnnouncement_emptyTitle_noRequest (token : Option String)
    (selectedCourse : Option Nat) (content : String) (isPinned : Bool)
    (server : ApiRequest → Except String Json) :
    handleCreateAnnouncement token selectedCourse "" content isPinned server =
      ⟨[], "Please provide a course, announcement title, and content"⟩ := by
  cases selectedCourse with
  | none => rfl
  | some courseId => simp [handleCreateAnnouncement]

/-- C10: `apiFetch` serializes a body only for a truthy payload — every
falsy payload (`null`, `0`, `""`, `false`) yields a request with no body —
while the `Content-Type: application/json` header is always present. -/
theorem buildRequest_body_truthiness (endpoint method : String)
    (token : Option String) (data : Json) :
    ("Content-Type", "application/json") ∈ (buildRequest endpoint method token data).headers ∧
    (buildRequest endpoint method token data).body =
      (if data.truthy then some data.stringify else none) ∧
    (buildRequest endpoint method token Json.null).body = none ∧
    (buildRequest endpoint method token (Json.num 0)).body = none ∧
    (buildRequest endpoint method token (Json.str "")).body = none ∧
    (buildRequest endpoint method token (Json.bool false)).body = none := by
  refine ⟨?_, rfl, rfl, ?_, ?_, rfl⟩
  · cases token with
    | none => simp [buildRequest]
    | some t =>
      by_cases h : t = "" <;> simp [buildRequest, h]
  · simp [buildRequest, Json.truthy]
  · simp [buildRequest, Json.truthy]

/-- C3: On a non-success HTTP status, `apiFetch` rejects with
`<message> (Status: <code>)`, where `<message>` comes from the
`error.message` or `message` field of the JSON body, falls back to the raw
body text when parsing fails, and to the generic
`Request failed (Status: <code>)` when that text is empty. -/
theorem apiFetch_errorMessage (status : Nat) (body : String) :
    (∀ j e s, Json.parse body = some j → j.getField "error" = some e →
        e.getField "message" = some (.str s) → s ≠ "" →
        apiFetchHandle ⟨false, status, body⟩ = .error (s ++ statusSuffix status)) ∧
    (∀ j s, Json.parse body = some j → j.getField "error" = none →
        j.getField "message" = some (.str s) → s ≠ "" →
        apiFetchHandle ⟨false, status, body⟩ = .error (s ++ statusSuffix status)) ∧
    (Json.parse body = none → body ≠ "" →
        apiFetchHandle ⟨false, status, body⟩ = .error (body ++ statusSuffix status)) ∧
    (body = "" →
        apiFetchHandle ⟨false, status, body⟩ =
          .error (requestFailedMsg status ++ statusSuffix status)) := by
  refine ⟨?_, ?_, ?_, ?_⟩
  · intro j e s hp herr hmsg hs
    simp [apiFetchHandle, hp, extractErrorMessage, herr, hmsg, jsOrElse, Json.truthy,
      Json.jsToString, hs]
  · intro j s hp herr hmsg hs
    simp [apiFetchHandle, hp, extractErrorMessage, herr, hmsg, jsOrElse, Json.truthy,
      Json.jsToString, hs]
  · intro hp hne
    simp [apiFetchHandle, hp, hne]
  · intro h
    subst h
    rfl

/-- C3 witness: a 404 whose body is the JSON object with message
`not found` rejects with exactly `not found (Status: 404)`. -/
theorem apiFetch_errorMessage_witness :
    apiFetchHandle ⟨false, 404, "\x7b\"message\":\"not found\"\x7d"⟩ =
      .error "not found (Status: 404)" :=
  (apiFetch_errorMessage 404 "\x7b\"message\":\"not found\"\x7d").2.1
    (Json.obj [("message", Json.str "not found")]) "not found" rfl rfl rfl (by decide)

/-- C7 counterexample: the enrollment error substring match is
case-sensitive — the backend message `no classroom exists` (lowercase, as
the claim quotes it) is not replaced by the friendlier message. -/
theorem enroll_lowercase_passthrough :
    jsIncludes "no classroom exists" "no classroom exists" = true ∧
    enrollErrorAlert "no classroom exists" = "Enrollment failed: no classroom exists" ∧
    enrollErrorAlert "no classroom exists" ≠ noClassroomFriendly := by
  refine ⟨by decide, by decide, by decide⟩

/-- C7 amended: the two special-cased substrings are the case-sensitive
`No classroom exists` and `Teacher does not match the course`; every other
message is surfaced verbatim inside an `Enrollment failed: ` alert. -/
theorem enrollErrorAlert_cases (errorMsg : String) :
    (jsIncludes errorMsg "No classroom exists" = true →
        enrollErrorAlert errorMsg = noClassroomFriendly) ∧
    (jsIncludes errorMsg "No classroom exists" = false →
     jsIncludes errorMsg "Teacher does not match the course" = true →
        enrollErrorAlert errorMsg = teacherMismatchFriendly) ∧
    (jsIncludes errorMsg "No classroom exists" = false →
     jsIncludes errorMsg "Teacher does not match the course" = false →
        enrollErrorAlert errorMsg = "Enrollment failed: " ++ errorMsg) := by
  refine ⟨?_, ?_, ?_⟩
  · intro h; simp [enrollErrorAlert, h]
  · intro h1 h2; simp [enrollErrorAlert, h1, h2]
  · intro h1 h2; simp [enrollErrorAlert, h1, h2, instToStringString, String.append_empty]

/-- C7 witness: an unrecognized message passes through verbatim in the
alert. -/
theorem enrollErrorAlert_cases_witness :
    enrollErrorAlert "boom" = "Enrollment failed: boom" :=
  (enrollErrorAlert_cases "boom").2.2 (by decide) (by decide)

/-- C2 counterexample: a success response whose body has a user with a role
but no token at all still resolves successfully, and persists the string
`undefined` as the token — `login` never checks the token field. -/
theorem login_missingToken_resolves :
    (Json.obj [("user", Json.obj [("role", Json.str "student")])]).getField "token" = none ∧
    login ⟨true, some (Json.obj [("user", Json.obj [("role", Json.str "student")])])⟩ [] =
      (.ok (Json.obj [("role", Json.str "student")]),
       [("token", "undefined"), ("user", "\x7b\"role\":\"student\"\x7d")]) :=
  ⟨rfl, rfl⟩

/-- C2 amended: on a success response, `login` validates only
`data.user` and `data.user.role`; when that check fails it rejects with the
InvalidResponse message and session storage is untouched, and when it passes
it resolves with the user and persists the (possibly `undefined`-coerced)
token unconditionally. -/
theorem login_validation (resp : LoginResponse) (store : Store) (data : Json) :
    resp.ok = true → resp.body = some data →
    ((loginUserCheck data = false →
        login resp store = (.error "Invalid user data received from server", store)) ∧
     (loginUserCheck data = true →
        login resp store =
          (.ok ((data.getField "user").getD .null),
           setItem (setItem store "token" (jsFieldToString (data.getField "token"))) "user"
             (match data.getField "user" with
              | some u => u.stringify
              | none => "undefined")))) := by
  intro hok hbody
  constructor
  · intro h
    simp [login, hok, hbody, h]
  · intro h
    simp [login, hok, hbody, h]

/-- C2 witness: a body whose user lacks a role is rejected with the
InvalidResponse message and the storage stays empty. -/
theorem login_validation_witness :
    login ⟨true, some (Json.obj [("user", Json.obj [("name", Json.str "Ada")]),
        ("token", Json.str "tok")])⟩ [] =
      (.error "Invalid user data received from server", []) :=
  ((login_validation ⟨true, some (Json.obj [("user", Json.obj [("name", Json.str "Ada")]),
      ("token", Json.str "tok")])⟩ []
    (Json.obj [("user", Json.obj [("name", Json.str "Ada")]), ("token", Json.str "tok")])
    rfl rfl).1) rfl

/-- C1 counterexample: with three courses where only course 2's assignment
fetch rejects, the unified assignment list is not updated at all — the
other two courses' assignments do not appear; the whole update is aborted
by the single outer catch around the `Promise.all` fan-outs. -/
theorem fetchCourseData_partialFailure :
    cexFetchAssignments 1 = .ok [Json.str "a1"] ∧
    cexFetchAssignments 2 = .error "Network error" ∧
    cexFetchAssignments 3 = .ok [Json.str "a3"] ∧
    fetchCourseData [1, 2, 3] cexFetchAssignments cexFetchEmpty cexFetchEmpty ⟨[], [], []⟩ =
      ⟨[], [], []⟩ ∧
    Json.str "a1" ∉
      (fetchCourseData [1, 2, 3] cexFetchAssignments cexFetchEmpty cexFetchEmpty
        ⟨[], [], []⟩).upcomingAssignments := by
  refine ⟨rfl, rfl, rfl, rfl, ?_⟩
  show Json.str "a1" ∉ ([] : List Json)
  simp

/-- C1 amended: the unified lists are updated only from a fan-out in which
every per-course request resolved; a single rejection in any phase aborts
that phase's update and all later phases, leaving their lists unchanged
(no per-course failure isolation).  The four conjuncts cover every outcome:
a rejection in the assignments, announcements or materials fan-out, and
the all-success run. -/
theorem fetchCourseData_phases (joinedCourses : List Nat)
    (fA fAn fM : Nat → Except String (List Json)) (st : StudentDashState) :
    (∀ e, promiseAll (joinedCourses.map fA) = .error e →
        fetchCourseData joinedCourses fA fAn fM st = st) ∧
    (∀ ra e,
        promiseAll (joinedCourses.map fA) = .ok ra →
        promiseAll (joinedCourses.map fAn) = .error e →
        fetchCourseData joinedCourses fA fAn fM st =
          ⟨ra.flatten.filter Json.truthy, st.announcements, st.materials⟩) ∧
    (∀ ra rb e,
        promiseAll (joinedCourses.map fA) = .ok ra →
        promiseAll (joinedCourses.map fAn) = .ok rb →
        promiseAll (joinedCourses.map fM) = .error e →
        fetchCourseData joinedCourses fA fAn fM st =
          ⟨ra.flatten.filter Json.truthy,
           rb.flatten.filter (fun a => a.truthy && ((a.getField "course").getD .null).truthy),
           st.materials⟩) ∧
    (∀ ra rb rc,
        promiseAll (joinedCourses.map fA) = .ok ra →
        promiseAll (joinedCourses.map fAn) = .ok rb →
        promiseAll (joinedCourses.map fM) = .ok rc →
        fetchCourseData joinedCourses fA fAn fM st =
          ⟨ra.flatten.filter Json.truthy,
           rb.flatten.filter (fun a => a.truthy && ((a.getField "course").getD .null).truthy),
           rc.flatten.filter Json.truthy⟩) := by
  refine ⟨?_, ?_, ?_, ?_⟩
  · intro e he
    simp [fetchCourseData, he]
  · intro ra e ha hb
    simp [fetchCourseData, ha, hb]
  · intro ra rb e ha hb hc
    simp [fetchCourseData, ha, hb, hc]
  · intro ra rb rc ha hb hc
    simp [fetchCourseData, ha, hb, hc]

/-- C1 witness: an all-success fan-out over one course replaces the stale
lists with the flattened (here empty) results; and with an announcements
fan-out that rejects, the assignments list is updated while the
announcements and materials lists keep their stale contents. -/
theorem fetchCourseData_phases_witness :
    fetchCourseData [1] cexFetchEmpty cexFetchEmpty cexFetchEmpty ⟨[Json.null], [], []⟩ =
      ⟨[], [], []⟩ ∧
    fetchCourseData [2] cexFetchEmpty cexFetchAssignments cexFetchEmpty
        ⟨[Json.null], [Json.null], [Json.null]⟩ =
      ⟨[], [Json.null], [Json.null]⟩ :=
  ⟨(fetchCourseData_phases [1] cexFetchEmpty cexFetchEmpty cexFetchEmpty
      ⟨[Json.null], [], []⟩).2.2.2 [[]] [[]] [[]] rfl rfl rfl,
   (fetchCourseData_phases [2] cexFetchEmpty cexFetchAssignments cexFetchEmpty
      ⟨[Json.null], [Json.null], [Json.null]⟩).2.1 [[]] "Network error" rfl rfl⟩

/-- C5 counterexample: an instant 300 milliseconds in the past rounds to a
seconds difference of zero, so `getRelativeTime` labels this past instant
`due in 0 seconds` — no ` overdue` suffix. -/
theorem getRelativeTime_pastWithinHalfSecond :
    (700 : Int) < 1000 ∧
    getRelativeTime (some 700) 1000 = "due in 0 seconds" ∧
    ¬ " overdue".data <:+ "due in 0 seconds".data :=
  ⟨by decide, by decide, by decide⟩

/-- `jsRoundDiv` of a non-negative numerator by a non-negative denominator
is non-negative. -/
theorem jsRoundDiv_nonneg {n : Int} (h : 0 ≤ n) {d : Int} (hd : 0 ≤ d) :
    0 ≤ jsRoundDiv n d :=
  Int.fdiv_nonneg (by omega) (by omega)

/-- A non-negative integer prints like its absolute value. -/
theorem toString_int_nonneg (s : Int) (h : 0 ≤ s) : toString s = toString s.natAbs := by
  obtain ⟨n, rfl⟩ := Int.eq_ofNat_of_zero_le h
  rfl

/-- The branch structure of `getRelativeTime` (left side) agrees with the
unified magnitude-bucketing of `relativeLabelSpec` (right side), for any
rounded seconds difference `s`. -/
theorem relAux (s : Int) :
    (if s < 0 then
       if s.natAbs < 60 then s!"{s.natAbs} seconds overdue"
       else if (jsRoundDiv s 60).natAbs < 60 then s!"{(jsRoundDiv s 60).natAbs} minutes overdue"
       else if (jsRoundDiv (jsRoundDiv s 60) 60).natAbs < 24 then
         s!"{(jsRoundDiv (jsRoundDiv s 60) 60).natAbs} hours overdue"
       else s!"{(jsRoundDiv (jsRoundDiv (jsRoundDiv s 60) 60) 24).natAbs} days overdue"
     else
       if s < 60 then s!"due in {s} seconds"
       else if jsRoundDiv s 60 < 60 then s!"due in {jsRoundDiv s 60} minutes"
       else if jsRoundDiv (jsRoundDiv s 60) 60 < 24 then
         s!"due in {jsRoundDiv (jsRoundDiv s 60) 60} hours"
       else s!"due in {jsRoundDiv (jsRoundDiv (jsRoundDiv s 60) 60) 24} days") =
    (if s.natAbs < 60 then
       (if s < 0 then s!"{s.natAbs} seconds" ++ " overdue" else "due in " ++ s!"{s.natAbs} seconds")
     else if (jsRoundDiv s 60).natAbs < 60 then
       (if s < 0 then s!"{(jsRoundDiv s 60).natAbs} minutes" ++ " overdue"
        else "due in " ++ s!"{(jsRoundDiv s 60).natAbs} minutes")
     else if (jsRoundDiv (jsRoundDiv s 60) 60).natAbs < 24 then
       (if s < 0 then s!"{(jsRoundDiv (jsRoundDiv s 60) 60).natAbs} hours" ++ " overdue"
        else "due in " ++ s!"{(jsRoundDiv (jsRoundDiv s 60) 60).natAbs} hours")
     else
       (if s < 0 then s!"{(jsRoundDiv (jsRoundDiv (jsRoundDiv s 60) 60) 24).natAbs} days" ++ " overdue"
        else "due in " ++ s!"{(jsRoundDiv (jsRoundDiv (jsRoundDiv s 60) 60) 24).natAbs} days")) := by
  by_cases h0 : s < 0
  · simp only [if_pos h0]
    split_ifs <;> (simp only [strAppendAssoc]; rfl)
  · have h1 : 0 ≤ s := by omega
    have hm : 0 ≤ jsRoundDiv s 60 := jsRoundDiv_nonneg h1 (by omega)
    have hk : 0 ≤ jsRoundDiv (jsRoundDiv s 60) 60 := jsRoundDiv_nonneg hm (by omega)
    have hp : 0 ≤ jsRoundDiv (jsRoundDiv (jsRoundDiv s 60) 60) 24 := jsRoundDiv_nonneg hk (by omega)
    have e1 : (s.natAbs < 60) ↔ (s < 60) := by omega
    have e2 : ((jsRoundDiv s 60).natAbs < 60) ↔ (jsRoundDiv s 60 < 60) := by omega
    have e3 : ((jsRoundDiv (jsRoundDiv s 60) 60).natAbs < 24) ↔
        (jsRoundDiv (jsRoundDiv s 60) 60 < 24) := by omega
    rw [toString_int_nonneg s h1, toString_int_nonneg _ hm, toString_int_nonneg _ hk,
      toString_int_nonneg _ hp]
    simp only [if_neg h0, e1, e2, e3]
    split_ifs <;> (simp only [strAppendAssoc]; rfl)

/-- C5 amended: for every non-empty input, `getRelativeTime` equals the
bucketing/rounding label of `relativeLabelSpec`, whose direction (the
`due in ` prefix versus the ` overdue` suffix) is decided by the sign of
the *rounded* seconds difference, not by past/future itself: a past
instant within half a second renders as `due in 0 seconds`. -/
theorem getRelativeTime_matchesSpec (due now : Int) :
    getRelativeTime (some due) now = relativeLabelSpec due now :=
  relAux (jsRoundDiv (due - now) 1000)
